import Mathlib

/-!
Shallow embedding of `src/http/http_response.hpp` (namespace `crow`): the
buffered `Response` type, the streaming `DynamicResponse` type, and their
lifecycle operations (completion protocol, relocation, conditional-GET
ETag logic).

Modelling conventions:
- The beast `http::response<string_body>` message is modelled by
  `StringResponse` (status code, case-insensitively keyed header list,
  body string, keep-alive flag).
- The nlohmann JSON value is modelled by the `Json` tree below, with the
  documented nlohmann semantics of `empty()`, `clear()` and of move
  operations (a moved-from value becomes `null`).  Floating-point numbers
  are not modelled (no claim depends on them).
- Callbacks (`std::function` completion handlers and liveness probes) are
  modelled as opaque identifiers of type `Nat`; invoking a handler is
  modelled as emitting its identifier into an event list.  Handler bodies
  are outside the model (re-entrancy through a handler is out of scope).
- Logging is ignored (write-only side channel).
-/

mutual

/-- Tree-shaped structured payload, mirroring `nlohmann::json` (the
member `Response::jsonValue`).  Arrays and objects use the dedicated
list types `JsonList` and `JsonObj` so that all recursion below is
structural and kernel-reducible. -/
inductive Json where
  | null
  | boolean (b : Bool)
  | num (n : Int)
  | str (s : String)
  | arr (elems : JsonList)
  | obj (fields : JsonObj)

/-- List of JSON array elements. -/
inductive JsonList where
  | nil
  | cons (hd : Json) (tl : JsonList)

/-- List of JSON object members (key and value). -/
inductive JsonObj where
  | nil
  | cons (key : String) (val : Json) (tl : JsonObj)

end

/-- Returns true when a JSON array-element list is nil. -/
def JsonList.isNil : JsonList → Bool
  | .nil => true
  | .cons _ _ => false

/-- Returns true when a JSON object-member list is nil. -/
def JsonObj.isNil : JsonObj → Bool
  | .nil => true
  | .cons _ _ _ => false

/-- Documented `nlohmann::json::empty()` semantics: `null` is empty,
arrays and objects are empty when they have no elements, and every
primitive value (boolean, number, string) is non-empty. -/
def Json.isEmpty : Json → Bool
  | .null => true
  | .arr l => l.isNil
  | .obj l => l.isNil
  | .boolean _ => false
  | .num _ => false
  | .str _ => false

/-- Documented `nlohmann::json::clear()` semantics: containers are
emptied in place, strings become the empty string, numbers become 0,
booleans become false, and `null` stays `null`.  Note a cleared
primitive is still non-empty under `Json.isEmpty`. -/
def Json.clear : Json → Json
  | .null => .null
  | .boolean _ => .boolean false
  | .num _ => .num 0
  | .str _ => .str ""
  | .arr _ => .arr .nil
  | .obj _ => .obj .nil

/-- Deterministic hash of a string, used as an ingredient of the
structural payload hash. -/
def strHash (s : String) : Nat :=
  s.data.foldl (fun a c => a * 31 + c.toNat) 7

mutual

/-- Modelled from the spec: the Structural Hasher collaborator
(`std::hash<nlohmann::json>`, not part of src/) is a deterministic
structural hash of the payload; the spec treats its concrete value as an
instance-local cache token, so any deterministic total function is a
faithful model.  This one combines the constructor tag with the hashes
of all children. -/
def jsonHash : Json → Nat
  | .null => 3
  | .boolean b => if b then 5 else 7
  | .num n => if n < 0 then 12 + 2 * n.natAbs else 11 + 2 * n.natAbs
  | .str s => 13 + strHash s
  | .arr l => 17 + jsonListHash l
  | .obj l => 19 + jsonObjHash l
termination_by structural j => j

/-- Hash of a JSON array-element list (helper of `jsonHash`). -/
def jsonListHash : JsonList → Nat
  | .nil => 1
  | .cons j rest => jsonHash j + 33 * jsonListHash rest
termination_by structural l => l

/-- Hash of a JSON object-member list (helper of `jsonHash`). -/
def jsonObjHash : JsonObj → Nat
  | .nil => 1
  | .cons k v rest => strHash k + jsonHash v + 37 * jsonObjHash rest
termination_by structural l => l

end

/-- ASCII lower-casing of one character (used for the case-insensitive
header-name comparison beast performs). -/
def lowerChar (c : Char) : Char :=
  if 65 ≤ c.toNat ∧ c.toNat ≤ 90 then Char.ofNat (c.toNat + 32) else c

/-- ASCII lower-casing of a string. -/
def lowerStr (s : String) : String := String.mk (s.data.map lowerChar)

/-- Case-insensitive equality of header field names, as used by the
beast header container. -/
def keyEq (a b : String) : Bool := lowerStr a == lowerStr b

/-- Hexadecimal digit characters, lowercase. -/
def hexDigit : Nat → Char
  | 0 => '0' | 1 => '1' | 2 => '2' | 3 => '3' | 4 => '4'
  | 5 => '5' | 6 => '6' | 7 => '7' | 8 => '8' | 9 => '9'
  | 10 => 'a' | 11 => 'b' | 12 => 'c' | 13 => 'd' | 14 => 'e'
  | 15 => 'f' | _ => '0'

/-- Modelled from the spec: the Hex Formatter collaborator
(`intToHexString` of `utils/hex_utils.hpp`, not part of src/) renders an
integer to a fixed-width lowercase hex string; digit i (from the left)
holds nibble (digits - 1 - i) of the value. -/
def intToHexString (value digits : Nat) : String :=
  String.mk ((List.range digits).map
    (fun i => hexDigit ((value / 16 ^ (digits - 1 - i)) % 16)))

/-- Returns true for lowercase hexadecimal digit characters. -/
def isLowerHex (c : Char) : Bool :=
  (48 ≤ c.toNat && c.toNat ≤ 57) || (97 ≤ c.toNat && c.toNat ≤ 102)

/-- Model of `boost::beast::http::response<string_body>` (the member
`Response::stringResponse` dereferences to this): status code, ordered
header list with case-insensitive names, body text, keep-alive flag.
A default-constructed message has status 200 OK, no headers, an empty
body, and keep-alive true (the HTTP/1.1 default). -/
structure StringResponse where
  result : Nat := 200
  headers : List (String × String) := []
  body : String := ""
  keepAliveFlag : Bool := true
  deriving DecidableEq

/-- Model of `fields::set`: replace every header whose name matches
case-insensitively with the single new name-value pair (insertion
position is not tracked; no claim depends on header order). -/
def StringResponse.set (s : StringResponse) (key value : String) : StringResponse :=
  { s with headers := (s.headers.filter (fun p => !keyEq p.1 key)) ++ [(key, value)] }

/-- Model of `fields::operator[]` as used by `getHeaderValue`: the value
of the first case-insensitively matching header, or the empty string. -/
def StringResponse.get (s : StringResponse) (key : String) : String :=
  ((s.headers.find? (fun p => keyEq p.1 key)).map Prod.snd).getD ""

/-- State of a beast message after being moved from: the header fields
are moved out (leaving none, so keep-alive reverts to the HTTP/1.1
default), the body string is left empty, and the integral status code is
copied rather than reset. -/
def StringResponse.movedFrom (s : StringResponse) : StringResponse :=
  { result := s.result, headers := [], body := "", keepAliveFlag := true }

/-- Embedding of `crow::Response` (http_response.hpp lines 22-267).
`completeRequestHandler` and `isAliveHelper` hold opaque callback
identifiers; `none` models a null `std::function`.  Field defaults give
the state established by the default constructor `Response()` (line 43)
together with the in-class member initializers. -/
structure Response where
  stringResponse : Option StringResponse := some {}
  jsonValue : Json := .null
  expectedHash : Option String := none
  completed : Bool := false
  completeRequestHandler : Option Nat := none
  isAliveHelper : Option Nat := none

/-- The default constructor `Response()` (line 43): an engaged blank
message store and defaulted members. -/
def Response.mkDefault : Response := {}

/-- Member `addHeader` (lines 33-41; the field-enum overload is the same
operation with the canonical field name, for ETag the string "ETag"). -/
def Response.addHeader (r : Response) (key value : String) : Response :=
  { r with stringResponse := r.stringResponse.map (fun s => s.set key value) }

/-- Setter overload `result(unsigned)` (lines 97-105). -/
def Response.setResult (r : Response) (v : Nat) : Response :=
  { r with stringResponse := r.stringResponse.map (fun s => { s with result := v }) }

/-- Getter `result()` (lines 107-110), returning the status code. -/
def Response.result (r : Response) : Nat :=
  (r.stringResponse.map StringResponse.result).getD 200

/-- Member `isCompleted` (lines 122-125). -/
def Response.isCompleted (r : Response) : Bool := r.completed

/-- Member `body()` (lines 127-130), read side. -/
def Response.body (r : Response) : String :=
  (r.stringResponse.map StringResponse.body).getD ""

/-- Member `getHeaderValue` (lines 132-135). -/
def Response.getHeaderValue (r : Response) (key : String) : String :=
  (r.stringResponse.map (fun s => s.get key)).getD ""

/-- Setter `keepAlive(bool)` (lines 137-140). -/
def Response.setKeepAlive (r : Response) (k : Bool) : Response :=
  { r with stringResponse := r.stringResponse.map (fun s => { s with keepAliveFlag := k }) }

/-- Getter `keepAlive()` (lines 142-145). -/
def Response.keepAlive (r : Response) : Bool :=
  (r.stringResponse.map StringResponse.keepAliveFlag).getD true

/-- Member `preparePayload` (lines 147-150): delegates to the message
store to compute framing metadata; modelled as setting Content-Length
from the body size. -/
def Response.preparePayload (r : Response) : Response :=
  { r with stringResponse :=
      r.stringResponse.map (fun s => s.set "Content-Length" (toString s.body.length)) }

/-- Member `clear` (lines 152-159): emplaces a fresh blank message
store, clears the payload in place, resets `completed`, drops the
expected hash.  The completion handler and liveness probe are not
touched. -/
def Response.clear (r : Response) : Response :=
  { r with stringResponse := some {}, jsonValue := r.jsonValue.clear,
           completed := false, expectedHash := none }

/-- Member `write` (lines 161-164): appends to the body. -/
def Response.write (r : Response) (bodyPart : String) : Response :=
  { r with stringResponse := r.stringResponse.map (fun s => { s with body := s.body ++ bodyPart }) }

/-- Member `computeEtag` (lines 166-180): empty string unless the status
is 200 OK and the payload is non-empty; otherwise a quoted 8-digit
lowercase hex rendering of the payload hash. -/
def Response.computeEtag (r : Response) : String :=
  if r.result ≠ 200 then ""
  else if r.jsonValue.isEmpty then ""
  else "\"" ++ intToHexString (jsonHash r.jsonValue) 8 ++ "\""

/-- Member `end` (lines 182-201), named `endOp` because `end` is a Lean
keyword.  Computes the ETag and, when non-empty, sets the ETag header;
only then checks `completed`: if already completed it logs and returns,
otherwise it marks the response completed and invokes the attached
completion handler, if any, passing the response.  The second component
lists the identifiers of the handlers invoked by this call. -/
def Response.endOp (r : Response) : Response × List Nat :=
  let etag := r.computeEtag
  let r1 := if etag = "" then r else r.addHeader "ETag" etag
  if r1.completed then (r1, [])
  else ({ r1 with completed := true }, r1.completeRequestHandler.toList)

/-- Member `setCompleteRequestHandler` (lines 208-216): stores the new
handler and resets `completed` to false. -/
def Response.setCompleteRequestHandler (r : Response) (h : Nat) : Response :=
  { r with completeRequestHandler := some h, completed := false }

/-- Member `releaseCompleteRequestHandler` (lines 218-226): returns the
stored handler, clears it, and marks the response completed. -/
def Response.releaseCompleteRequestHandler (r : Response) : Response × Option Nat :=
  ({ r with completeRequestHandler := none, completed := true }, r.completeRequestHandler)

/-- Member `setIsAliveHelper` (lines 228-231). -/
def Response.setIsAliveHelper (r : Response) (p : Nat) : Response :=
  { r with isAliveHelper := some p }

/-- Member `releaseIsAliveHelper` (lines 233-238). -/
def Response.releaseIsAliveHelper (r : Response) : Response × Option Nat :=
  ({ r with isAliveHelper := none }, r.isAliveHelper)

/-- Member `setHashAndHandleNotModified` (lines 240-255): no-op when the
payload is empty or the status is not 200 OK; otherwise computes the
quoted hash, sets it as the ETag header, and when it equals the stored
`expectedHash` clears the payload in place and forces status 304 Not
Modified.  The local variable hexVal of the source is inlined here, and
clearing the payload after the header update equals clearing the
original payload because `addHeader` does not touch it. -/
def Response.setHashAndHandleNotModified (r : Response) : Response :=
  if r.jsonValue.isEmpty = true ∨ r.result ≠ 200 then r
  else if r.expectedHash = some ("\"" ++ intToHexString (jsonHash r.jsonValue) 8 ++ "\"") then
    ({ (r.addHeader "ETag" ("\"" ++ intToHexString (jsonHash r.jsonValue) 8 ++ "\"")) with
        jsonValue := r.jsonValue.clear }).setResult 304
  else r.addHeader "ETag" ("\"" ++ intToHexString (jsonHash r.jsonValue) 8 ++ "\"")

/-- Member `setExpectedHash` (lines 257-260). -/
def Response.setExpectedHash (r : Response) (hash : String) : Response :=
  { r with expectedHash := some hash }

/-- The move constructor `Response(Response&&)` (lines 45-57) as a pure
function from the source to the pair (constructed destination, state
left in the source).  The optional message store is moved, which leaves
the source optional engaged holding a moved-from message; the payload is
moved (source becomes null); `completed` is copied and NOT reset in the
source; the handler is transferred only when the source is not yet
completed (otherwise the source keeps it and the destination gets the
default null handler); the liveness probe is copied and then nulled in
the source; the destination `expectedHash` is default-constructed and
the source `expectedHash` is untouched. -/
def Response.moveCtor (res : Response) : Response × Response :=
  ({ stringResponse := res.stringResponse,
     jsonValue := res.jsonValue,
     expectedHash := none,
     completed := res.completed,
     completeRequestHandler := if res.completed then none else res.completeRequestHandler,
     isAliveHelper := res.isAliveHelper },
   { stringResponse := res.stringResponse.map StringResponse.movedFrom,
     jsonValue := .null,
     expectedHash := res.expectedHash,
     completed := res.completed,
     completeRequestHandler := if res.completed then res.completeRequestHandler else none,
     isAliveHelper := none })

/-- The move assignment `operator=(Response&&)` (lines 65-95) as a pure
function of (destination, source) returning (new destination, state left
in the source).  The source message store is moved and then re-emplaced
blank; the payload moves (source becomes null); the handler moves only
when the source is not completed, else the destination handler is set to
null and the source keeps its handler; `completed` is copied and NOT
reset in the source; the probe moves and is nulled in the source; the
`expectedHash` members of both objects are untouched.  The C++ self
assignment guard is not representable over two distinct values and is
not modelled. -/
def Response.moveAssign (dest src : Response) : Response × Response :=
  ({ stringResponse := src.stringResponse,
     jsonValue := src.jsonValue,
     expectedHash := dest.expectedHash,
     completed := src.completed,
     completeRequestHandler := if src.completed then none else src.completeRequestHandler,
     isAliveHelper := src.isAliveHelper },
   { stringResponse := some {},
     jsonValue := .null,
     expectedHash := src.expectedHash,
     completed := src.completed,
     completeRequestHandler := if src.completed then src.completeRequestHandler else none,
     isAliveHelper := none })

/-- Model of the message of `DynamicResponse` (`http::response` over a
1 MiB `flat_static_buffer` dynamic body, lines 271-275).  The capped
buffer content is modelled as the string it holds; the capacity bound is
enforced by the buffer collaborator and no operation in this header
writes to the buffer, so the cap itself is not modelled. -/
structure DynMessage where
  result : Nat := 200
  headers : List (String × String) := []
  body : String := ""
  keepAliveFlag : Bool := true
  deriving DecidableEq

/-- Embedding of `crow::DynamicResponse` (lines 269-378).  The copy
constructor, move constructor and copy assignment are deleted in the
source; move assignment is the only relocation-like operation defined,
see `DynamicResponse.moveAssign`. -/
structure DynamicResponse where
  bufferResponse : Option DynMessage := some {}
  completeRequestHandler : Option Nat := none
  completed : Bool := false
  isAliveHelper : Option Nat := none

/-- The defined move assignment `DynamicResponse::operator=(DynamicResponse&&)`
(lines 297-304): moves the message store, re-emplaces the source store
blank, and copies `completed`; it does not touch the completion handler
or liveness probe of either object, and does not reset the source
`completed` flag. -/
def DynamicResponse.moveAssign (dest src : DynamicResponse) :
    DynamicResponse × DynamicResponse :=
  ({ bufferResponse := src.bufferResponse,
     completed := src.completed,
     completeRequestHandler := dest.completeRequestHandler,
     isAliveHelper := dest.isAliveHelper },
   { src with bufferResponse := some {} })

/-- One public operation on a buffered `Response`, for trace-based
properties.  `moveOutCtor` and `moveOutAssign` mean the traced instance
is the source of a relocation; `moveInAssign o` means the traced
instance is move-assigned from the literal response `o`. -/
inductive ROp where
  | addHeader (key value : String)
  | setResult (v : Nat)
  | write (bodyPart : String)
  | setKeepAlive (k : Bool)
  | preparePayload
  | clear
  | endOp
  | setCompleteRequestHandler (h : Nat)
  | releaseCompleteRequestHandler
  | setIsAliveHelper (p : Nat)
  | releaseIsAliveHelper
  | setExpectedHash (hash : String)
  | setHashAndHandleNotModified
  | moveOutCtor
  | moveOutAssign
  | moveInAssign (other : Response)

/-- Applies one public operation to the traced instance, returning the
new state and the identifiers of any completion handlers invoked.  The
state a move assignment leaves in its source does not depend on the
destination, so `moveOutAssign` uses a default-constructed destination. -/
def Response.step (r : Response) : ROp → Response × List Nat
  | .addHeader k v => (r.addHeader k v, [])
  | .setResult v => (r.setResult v, [])
  | .write b => (r.write b, [])
  | .setKeepAlive k => (r.setKeepAlive k, [])
  | .preparePayload => (r.preparePayload, [])
  | .clear => (r.clear, [])
  | .endOp => r.endOp
  | .setCompleteRequestHandler h => (r.setCompleteRequestHandler h, [])
  | .releaseCompleteRequestHandler => ((r.releaseCompleteRequestHandler).fst, [])
  | .setIsAliveHelper p => (r.setIsAliveHelper p, [])
  | .releaseIsAliveHelper => ((r.releaseIsAliveHelper).fst, [])
  | .setExpectedHash h => (r.setExpectedHash h, [])
  | .setHashAndHandleNotModified => (r.setHashAndHandleNotModified, [])
  | .moveOutCtor => ((r.moveCtor).snd, [])
  | .moveOutAssign => ((Response.moveAssign Response.mkDefault r).snd, [])
  | .moveInAssign o => ((Response.moveAssign r o).fst, [])

/-- Runs a sequence of public operations, concatenating the handler
invocation events. -/
def Response.runOps (r : Response) : List ROp → Response × List Nat
  | [] => (r, [])
  | op :: rest =>
    let s := r.step op
    let t := s.fst.runOps rest
    (t.fst, s.snd ++ t.snd)

/-- Operations that never reset the `completed` flag to false: everything
except `clear`, attaching a new completion handler, and being
move-assigned from another response. -/
def ROp.nonResetting : ROp → Bool
  | .clear => false
  | .setCompleteRequestHandler _ => false
  | .moveInAssign _ => false
  | _ => true

/-- Side condition for trace reasoning: a `moveInAssign` source must
itself carry an engaged message store. -/
def ROp.engagedArg : ROp → Bool
  | .moveInAssign o => o.stringResponse.isSome
  | _ => true

/-- Concrete structured payload used by several witnesses: the object
with the single member named a holding 1.  Its hash under `jsonHash` is
383, so the rendered tag is the quoted string 0000017f. -/
def jsonA : Json := Json.obj (.cons "a" (Json.num 1) .nil)

/-- Fresh response with an attached handler (identifier 7). -/
def exC1 : Response := { completeRequestHandler := some 7 }

/-- Already-completed response, to be moved out of. -/
def exC2 : Response := { completed := true }

/-- Fresh response with an attached handler (identifier 9). -/
def exC3w : Response := { completeRequestHandler := some 9 }

/-- Not-yet-completed response with handler 5 and probe 2. -/
def exC4s : Response := { completeRequestHandler := some 5, isAliveHelper := some 2 }

/-- Destination used in the relocation witness of claim C4. -/
def exC4d : Response := { completed := true }

/-- Response carrying the payload `jsonA` with its expected hash set to
the tag of `jsonA`, ready for the 304 path. -/
def exC5 : Response := { jsonValue := jsonA, expectedHash := some "\"0000017f\"" }

/-- Response carrying the payload `jsonA` with success status. -/
def exC6 : Response := { jsonValue := jsonA }

/-- Already-completed response still holding payload `jsonA` and no ETag
header. -/
def exC7 : Response := { completed := true, jsonValue := jsonA }

/-- Response whose payload is the primitive number 5. -/
def exC8 : Response := { jsonValue := Json.num 5 }

/-- Blank streaming response. -/
def exC9d : DynamicResponse := {}

/-- Streaming response with distinctive state: a 204 status, body abc,
handler 4, probe 6, already completed. -/
def exC9s : DynamicResponse :=
  { bufferResponse := some { result := 204, body := "abc" },
    completed := true, completeRequestHandler := some 4, isAliveHelper := some 6 }

/-- Operation sequence used by the witness of claim C10. -/
def exOps10 : List ROp :=
  [ROp.addHeader "X-Test" "1", ROp.setResult 204, ROp.write "hello",
   ROp.setKeepAlive false, ROp.preparePayload, ROp.setCompleteRequestHandler 3,
   ROp.endOp, ROp.clear, ROp.setExpectedHash "x",
   ROp.setHashAndHandleNotModified, ROp.moveOutCtor, ROp.moveOutAssign,
   ROp.moveInAssign Response.mkDefault, ROp.releaseCompleteRequestHandler,
   ROp.setIsAliveHelper 8, ROp.releaseIsAliveHelper]

/-! Helper lemmas shared by several claim proofs. -/

theorem isLowerHex_hexDigit (m : Nat) (h : m < 16) : isLowerHex (hexDigit m) = true := by
  interval_cases m <;> rfl

theorem intToHexString_length (v n : Nat) : (intToHexString v n).length = n := by
  simp [intToHexString, String.length]

theorem intToHexString_hex (v n : Nat) :
    (intToHexString v n).data.all isLowerHex = true := by
  have hdata : (intToHexString v n).data
      = (List.range n).map (fun i => hexDigit ((v / 16 ^ (n - 1 - i)) % 16)) := rfl
  rw [hdata, List.all_eq_true]
  intro c hc
  rcases List.mem_map.mp hc with ⟨i, _, rfl⟩
  exact isLowerHex_hexDigit _ (Nat.mod_lt _ (by decide))

theorem StringResponse.get_set (s : StringResponse) (k v : String) :
    (s.set k v).get k = v := by
  unfold StringResponse.set StringResponse.get
  rw [List.find?_append]
  have h1 : (s.headers.filter (fun p => !keyEq p.1 k)).find? (fun p => keyEq p.1 k) = none := by
    rw [List.find?_eq_none]
    intro p hp
    have h2 := (List.mem_filter.mp hp).2
    simp only [Bool.not_eq_true'] at h2
    simp [h2]
  rw [h1]
  simp [keyEq]

theorem Response.addHeader_completed (r : Response) (k v : String) :
    (r.addHeader k v).completed = r.completed := rfl

theorem Response.addHeader_handler (r : Response) (k v : String) :
    (r.addHeader k v).completeRequestHandler = r.completeRequestHandler := rfl

theorem Response.addHeader_json (r : Response) (k v : String) :
    (r.addHeader k v).jsonValue = r.jsonValue := rfl

theorem Response.addHeader_probe (r : Response) (k v : String) :
    (r.addHeader k v).isAliveHelper = r.isAliveHelper := rfl

theorem Response.addHeader_expectedHash (r : Response) (k v : String) :
    (r.addHeader k v).expectedHash = r.expectedHash := rfl

theorem Response.addHeader_result (r : Response) (k v : String) :
    (r.addHeader k v).result = r.result := by
  cases hr : r.stringResponse <;>
    simp [Response.addHeader, Response.result, hr, StringResponse.set]

theorem Response.addHeader_body (r : Response) (k v : String) :
    (r.addHeader k v).body = r.body := by
  cases hr : r.stringResponse <;>
    simp [Response.addHeader, Response.body, hr, StringResponse.set]

theorem Response.getHeaderValue_addHeader (r : Response) (k v : String)
    (hs : r.stringResponse.isSome = true) :
    (r.addHeader k v).getHeaderValue k = v := by
  cases hr : r.stringResponse with
  | none => rw [hr] at hs; simp at hs
  | some s =>
    simp [Response.addHeader, Response.getHeaderValue, hr, StringResponse.get_set]

theorem Response.endOp_of_completed (r : Response) (h : r.completed = true) :
    r.endOp = (if r.computeEtag = "" then r else r.addHeader "ETag" r.computeEtag, []) := by
  unfold Response.endOp
  by_cases he : r.computeEtag = "" <;>
    simp [he, h, Response.addHeader_completed]

theorem Response.endOp_of_not_completed (r : Response) (h : r.completed = false) :
    r.endOp = ({ (if r.computeEtag = "" then r else r.addHeader "ETag" r.computeEtag) with
                   completed := true },
               r.completeRequestHandler.toList) := by
  unfold Response.endOp
  by_cases he : r.computeEtag = "" <;>
    simp [he, h, Response.addHeader_completed, Response.addHeader_handler]

theorem Response.endOp_fst_completed (r : Response) : r.endOp.fst.completed = true := by
  by_cases h : r.completed = true
  · rw [Response.endOp_of_completed r h]
    by_cases he : r.computeEtag = "" <;> simp [he, h, Response.addHeader_completed]
  · rw [Response.endOp_of_not_completed r (by simpa using h)]

theorem Response.endOp_snd_of_completed (r : Response) (h : r.completed = true) :
    r.endOp.snd = [] := by
  rw [Response.endOp_of_completed r h]

theorem Response.endOp_snd_no_handler (r : Response)
    (h : r.completeRequestHandler = none) : r.endOp.snd = [] := by
  by_cases hc : r.completed = true
  · exact Response.endOp_snd_of_completed r hc
  · rw [Response.endOp_of_not_completed r (by simpa using hc)]
    simp [h]

/-! Claim theorems. -/

/-- C1: invoking finalize (`end`) twice consecutively on a buffered
response that is not yet completed invokes the attached handler at most
once in total: the first call sets `completed` and emits exactly the
attached handler (none if none is attached), and the second call emits
nothing. -/
theorem claim_C1_finalize_twice (r : Response) (h : r.completed = false) :
    r.endOp.fst.completed = true ∧
    r.endOp.snd = r.completeRequestHandler.toList ∧
    r.endOp.fst.endOp.snd = [] ∧
    (r.endOp.snd ++ r.endOp.fst.endOp.snd).length ≤ 1 := by
  have h1 := Response.endOp_of_not_completed r h
  have hfst : r.endOp.fst.completed = true := by rw [h1]
  have h2 : r.endOp.snd = r.completeRequestHandler.toList := by rw [h1]
  refine ⟨hfst, h2, Response.endOp_snd_of_completed _ hfst, ?_⟩
  rw [h2, Response.endOp_snd_of_completed _ hfst]
  cases r.completeRequestHandler <;> simp

/-- C1 witness: a fresh response with handler 7 attached. -/
theorem claim_C1_witness :
    exC1.completed = false ∧
    (exC1.endOp.fst.completed = true ∧
     exC1.endOp.snd = exC1.completeRequestHandler.toList ∧
     exC1.endOp.fst.endOp.snd = [] ∧
     (exC1.endOp.snd ++ exC1.endOp.fst.endOp.snd).length ≤ 1) :=
  ⟨rfl, claim_C1_finalize_twice exC1 rfl⟩

/-- C2 counterexample: moving out of an already-completed response (here
by move assignment into a fresh destination) leaves the moved-from
instance with `isCompleted()` still true, contradicting the claim that
the source is reset to a non-completed state; the move constructor
leaves the source completed as well. -/
theorem claim_C2_counterexample :
    (Response.moveAssign Response.mkDefault exC2).snd.isCompleted = true ∧
    (Response.moveCtor exC2).snd.isCompleted = true :=
  ⟨rfl, rfl⟩

/-- C2 amended: after relocation out of an instance the structured
payload is indeed empty (null) and, for move assignment, the message
store is a fresh blank instance (move construction instead leaves the
store engaged holding moved-from content), but the completed flag is not
reset: `isCompleted()` on the moved-from instance returns its pre-move
value. -/
theorem claim_C2_amended (d s : Response) :
    (Response.moveAssign d s).snd.stringResponse = some {} ∧
    (Response.moveAssign d s).snd.jsonValue = Json.null ∧
    (Response.moveAssign d s).snd.isCompleted = s.isCompleted ∧
    (Response.moveCtor s).snd.stringResponse = s.stringResponse.map StringResponse.movedFrom ∧
    (Response.moveCtor s).snd.jsonValue = Json.null ∧
    (Response.moveCtor s).snd.isCompleted = s.isCompleted :=
  ⟨rfl, rfl, rfl, rfl, rfl, rfl⟩

/-- C8 counterexample: a response whose payload is the primitive number
5.  After `clear()` the payload is the number 0, which is not empty
under the documented payload semantics, contradicting the claim that the
payload is empty after `clear()`. -/
theorem claim_C8_counterexample :
    exC8.clear.jsonValue = Json.num 0 ∧
    exC8.clear.jsonValue.isEmpty = false :=
  ⟨rfl, rfl⟩

/-- C8 amended: after `clear()` the message store is a fresh blank
instance, `isCompleted()` is false, no expected hash is set, and the
payload is cleared in place (containers emptied, strings blanked,
numbers zeroed, booleans set to false); the cleared payload is empty
exactly when the previous payload was null, an array, or an object,
primitives remaining non-empty. -/
theorem claim_C8_amended (r : Response) :
    r.clear.stringResponse = some {} ∧
    r.clear.jsonValue = r.jsonValue.clear ∧
    r.clear.isCompleted = false ∧
    r.clear.expectedHash = none ∧
    r.clear.jsonValue.isEmpty =
      (match r.jsonValue with
       | Json.null => true | Json.arr _ => true | Json.obj _ => true
       | _ => false) := by
  refine ⟨rfl, rfl, rfl, rfl, ?_⟩
  have h2 : r.clear.jsonValue = r.jsonValue.clear := rfl
  rw [h2]
  cases r.jsonValue <;> rfl

/-- C9 counterexample: `DynamicResponse` does expose a relocation
operation: the defined move assignment transfers the message store of
the source to the destination (shown here at concrete states with
distinct stores), so the claim that no operation transfers its state is
false. -/
theorem claim_C9_counterexample :
    (DynamicResponse.moveAssign exC9d exC9s).fst.bufferResponse = exC9s.bufferResponse ∧
    exC9s.bufferResponse ≠ exC9d.bufferResponse := by
  refine ⟨rfl, ?_⟩
  decide

/-- C9 amended: the copy constructor, move constructor and copy
assignment of the streaming variant are deleted, but move assignment is
exposed; it transfers the message store and the completed flag to the
destination and resets the source store to a fresh blank buffer, while
the completion handler and the liveness probe are not transferred (each
instance keeps its own) and the source completed flag is not reset. -/
theorem claim_C9_amended (d s : DynamicResponse) :
    (DynamicResponse.moveAssign d s).fst.bufferResponse = s.bufferResponse ∧
    (DynamicResponse.moveAssign d s).fst.completed = s.completed ∧
    (DynamicResponse.moveAssign d s).fst.completeRequestHandler = d.completeRequestHandler ∧
    (DynamicResponse.moveAssign d s).fst.isAliveHelper = d.isAliveHelper ∧
    (DynamicResponse.moveAssign d s).snd.bufferResponse = some {} ∧
    (DynamicResponse.moveAssign d s).snd.completed = s.completed ∧
    (DynamicResponse.moveAssign d s).snd.completeRequestHandler = s.completeRequestHandler ∧
    (DynamicResponse.moveAssign d s).snd.isAliveHelper = s.isAliveHelper :=
  ⟨rfl, rfl, rfl, rfl, rfl, rfl, rfl, rfl⟩

theorem Response.setResult_getHeaderValue (r : Response) (v : Nat) (k : String) :
    (r.setResult v).getHeaderValue k = r.getHeaderValue k := by
  cases hr : r.stringResponse <;>
    simp [Response.setResult, Response.getHeaderValue, hr, StringResponse.get]

theorem Response.setResult_result (r : Response) (v : Nat)
    (hs : r.stringResponse.isSome = true) : (r.setResult v).result = v := by
  cases hr : r.stringResponse with
  | none => rw [hr] at hs; simp at hs
  | some s => simp [Response.setResult, Response.result, hr]

theorem Response.addHeader_isSome (r : Response) (k v : String) :
    (r.addHeader k v).stringResponse.isSome = r.stringResponse.isSome := by
  cases hr : r.stringResponse <;> simp [Response.addHeader, hr]

/-- C4: relocation of a buffered response always transfers the liveness
probe and nulls it in the source; when the source is not yet completed
the completion handler is transferred and the source becomes
handler-less, so a subsequent finalize on the source invokes no handler;
when the source is already completed the destination gets no handler. -/
theorem claim_C4_relocation_handler (d s : Response) :
    (Response.moveCtor s).fst.isAliveHelper = s.isAliveHelper ∧
    (Response.moveCtor s).snd.isAliveHelper = none ∧
    (Response.moveAssign d s).fst.isAliveHelper = s.isAliveHelper ∧
    (Response.moveAssign d s).snd.isAliveHelper = none ∧
    (s.completed = false →
      (Response.moveCtor s).fst.completeRequestHandler = s.completeRequestHandler ∧
      (Response.moveCtor s).snd.completeRequestHandler = none ∧
      (Response.moveAssign d s).fst.completeRequestHandler = s.completeRequestHandler ∧
      (Response.moveAssign d s).snd.completeRequestHandler = none ∧
      (Response.moveCtor s).snd.endOp.snd = [] ∧
      (Response.moveAssign d s).snd.endOp.snd = []) ∧
    (s.completed = true →
      (Response.moveCtor s).fst.completeRequestHandler = none ∧
      (Response.moveAssign d s).fst.completeRequestHandler = none) := by
  refine ⟨rfl, rfl, rfl, rfl, fun h => ?_, fun h => ?_⟩
  · have h1 : (Response.moveCtor s).snd.completeRequestHandler = none := by
      simp [Response.moveCtor, h]
    have h2 : (Response.moveAssign d s).snd.completeRequestHandler = none := by
      simp [Response.moveAssign, h]
    exact ⟨by simp [Response.moveCtor, h], h1, by simp [Response.moveAssign, h], h2,
      Response.endOp_snd_no_handler _ h1, Response.endOp_snd_no_handler _ h2⟩
  · exact ⟨by simp [Response.moveCtor, h], by simp [Response.moveAssign, h]⟩

/-- C4 witness: relocating a not-yet-completed response with handler 5
and probe 2 into a completed destination. -/
theorem claim_C4_witness :
    exC4s.completed = false ∧
    (Response.moveAssign exC4d exC4s).fst.completeRequestHandler = exC4s.completeRequestHandler ∧
    (Response.moveAssign exC4d exC4s).snd.completeRequestHandler = none ∧
    (Response.moveAssign exC4d exC4s).snd.endOp.snd = [] ∧
    (Response.moveCtor exC4s).fst.isAliveHelper = exC4s.isAliveHelper := by
  have h := claim_C4_relocation_handler exC4d exC4s
  have hb := h.2.2.2.2.1 rfl
  exact ⟨rfl, hb.2.2.1, hb.2.2.2.1, hb.2.2.2.2.2, h.1⟩

/-- C6: `computeEtag` returns the empty string unless the status is 200
OK and the payload is non-empty; otherwise it returns a double quote,
8 lowercase hex digits, and a double quote; and it is deterministic: two
responses with success status and identical payloads get identical
tags. -/
theorem claim_C6_computeEtag (r r2 : Response) :
    (¬(r.result = 200 ∧ r.jsonValue.isEmpty = false) → r.computeEtag = "") ∧
    ((r.result = 200 ∧ r.jsonValue.isEmpty = false) →
      ∃ core : String, r.computeEtag = "\"" ++ core ++ "\"" ∧
        core.length = 8 ∧ core.data.all isLowerHex = true) ∧
    (r.result = 200 → r2.result = 200 → r.jsonValue = r2.jsonValue →
      r.computeEtag = r2.computeEtag) := by
  refine ⟨?_, ?_, ?_⟩
  · intro h
    by_cases h200 : r.result = 200
    · have hemp : r.jsonValue.isEmpty = true := by
        by_contra hne
        exact h ⟨h200, by simpa using hne⟩
      simp [Response.computeEtag, h200, hemp]
    · simp [Response.computeEtag, h200]
  · rintro ⟨h200, hne⟩
    exact ⟨intToHexString (jsonHash r.jsonValue) 8,
      by simp [Response.computeEtag, h200, hne],
      intToHexString_length _ _, intToHexString_hex _ _⟩
  · intro h200 h200b hj
    simp [Response.computeEtag, h200, h200b, hj]

/-- C6 witness: a success response with the non-empty payload `jsonA`
gets a quoted 8-digit lowercase hex tag. -/
theorem claim_C6_witness :
    (exC6.result = 200 ∧ exC6.jsonValue.isEmpty = false) ∧
    (∃ core : String, exC6.computeEtag = "\"" ++ core ++ "\"" ∧
      core.length = 8 ∧ core.data.all isLowerHex = true) :=
  ⟨⟨rfl, rfl⟩, (claim_C6_computeEtag exC6 exC6).2.1 ⟨rfl, rfl⟩⟩

/-- C7 counterexample: an already-completed response with success status,
non-empty payload and no ETag header.  A further finalize call does
change its state: it sets the ETag header (the header is written before
the completed check), so the claim that the entire state is unchanged is
false. -/
theorem claim_C7_counterexample :
    exC7.isCompleted = true ∧
    exC7.getHeaderValue "ETag" = "" ∧
    exC7.endOp.fst.getHeaderValue "ETag" = "\"0000017f\"" := by
  refine ⟨rfl, rfl, ?_⟩
  decide

/-- C7 amended: a finalize call on an already-completed response invokes
no handler and leaves the status, body, structured payload, completed
flag, handler, probe, and expected hash unchanged; the state is entirely
unchanged when `computeEtag` is empty, but when the status is success
and the payload non-empty the call still (re)sets the ETag header, so
the headers are not in general unchanged. -/
theorem claim_C7_amended (r : Response) (h : r.completed = true) :
    r.endOp.snd = [] ∧
    r.endOp.fst.completed = true ∧
    r.endOp.fst.jsonValue = r.jsonValue ∧
    r.endOp.fst.completeRequestHandler = r.completeRequestHandler ∧
    r.endOp.fst.isAliveHelper = r.isAliveHelper ∧
    r.endOp.fst.expectedHash = r.expectedHash ∧
    r.endOp.fst.result = r.result ∧
    r.endOp.fst.body = r.body ∧
    (r.computeEtag = "" → r.endOp.fst = r) ∧
    (r.computeEtag ≠ "" → r.endOp.fst = r.addHeader "ETag" r.computeEtag) := by
  have h1 := Response.endOp_of_completed r h
  by_cases he : r.computeEtag = ""
  · rw [h1]
    simp [he, h]
  · rw [h1]
    simp [he, h, Response.addHeader_json, Response.addHeader_handler,
      Response.addHeader_probe, Response.addHeader_expectedHash,
      Response.addHeader_result, Response.addHeader_body,
      Response.addHeader_completed]

/-- C7 amended witness: the completed response `exC7`. -/
theorem claim_C7_amended_witness :
    exC7.completed = true ∧
    (exC7.endOp.snd = [] ∧
     exC7.endOp.fst.completed = true ∧
     exC7.endOp.fst.jsonValue = exC7.jsonValue ∧
     exC7.endOp.fst.completeRequestHandler = exC7.completeRequestHandler ∧
     exC7.endOp.fst.isAliveHelper = exC7.isAliveHelper ∧
     exC7.endOp.fst.expectedHash = exC7.expectedHash ∧
     exC7.endOp.fst.result = exC7.result ∧
     exC7.endOp.fst.body = exC7.body ∧
     (exC7.computeEtag = "" → exC7.endOp.fst = exC7) ∧
     (exC7.computeEtag ≠ "" → exC7.endOp.fst = exC7.addHeader "ETag" exC7.computeEtag)) :=
  ⟨rfl, claim_C7_amended exC7 rfl⟩

/-- C5: for a response with an engaged message store, success status and
non-empty payload, `setHashAndHandleNotModified` sets the computed tag
as the ETag header; when the stored expected hash equals the tag it
additionally clears the payload in place and forces status 304 Not
Modified; when the expected hash differs or is absent, status and
payload are unchanged; and when the status is not success or the payload
is empty the call is the identity. -/
theorem claim_C5_setHashAndHandleNotModified (r : Response)
    (hs : r.stringResponse.isSome = true) :
    ((r.result = 200 ∧ r.jsonValue.isEmpty = false) →
      r.setHashAndHandleNotModified.getHeaderValue "ETag" = r.computeEtag ∧
      (r.expectedHash = some r.computeEtag →
        r.setHashAndHandleNotModified.jsonValue = r.jsonValue.clear ∧
        r.setHashAndHandleNotModified.result = 304) ∧
      (r.expectedHash ≠ some r.computeEtag →
        r.setHashAndHandleNotModified.result = r.result ∧
        r.setHashAndHandleNotModified.jsonValue = r.jsonValue)) ∧
    (¬(r.result = 200 ∧ r.jsonValue.isEmpty = false) →
      r.setHashAndHandleNotModified = r) := by
  constructor
  · rintro ⟨h200, hne⟩
    have hetag : r.computeEtag = "\"" ++ intToHexString (jsonHash r.jsonValue) 8 ++ "\"" := by
      simp [Response.computeEtag, h200, hne]
    have hcond : ¬(r.jsonValue.isEmpty = true ∨ r.result ≠ 200) := by
      simp [hne, h200]
    by_cases hm : r.expectedHash = some ("\"" ++ intToHexString (jsonHash r.jsonValue) 8 ++ "\"")
    · have hval : r.setHashAndHandleNotModified =
          ({ (r.addHeader "ETag" ("\"" ++ intToHexString (jsonHash r.jsonValue) 8 ++ "\"")) with
              jsonValue := r.jsonValue.clear }).setResult 304 := by
        unfold Response.setHashAndHandleNotModified
        rw [if_neg hcond, if_pos hm]
      refine ⟨?_, fun _ => ⟨?_, ?_⟩, fun hne2 => absurd (by rw [hetag]; exact hm) hne2⟩
      · rw [hval, hetag, Response.setResult_getHeaderValue]
        exact Response.getHeaderValue_addHeader r _ _ hs
      · rw [hval]
        rfl
      · rw [hval]
        apply Response.setResult_result
        simpa [Response.addHeader_isSome] using hs
    · have hval : r.setHashAndHandleNotModified =
          r.addHeader "ETag" ("\"" ++ intToHexString (jsonHash r.jsonValue) 8 ++ "\"") := by
        unfold Response.setHashAndHandleNotModified
        rw [if_neg hcond, if_neg hm]
      refine ⟨?_, fun hm2 => absurd (by rw [hetag] at hm2; exact hm2) hm, fun _ => ?_⟩
      · rw [hval, hetag]
        exact Response.getHeaderValue_addHeader r _ _ hs
      · rw [hval]
        exact ⟨Response.addHeader_result r _ _, Response.addHeader_json r _ _⟩
  · intro h
    have hcond : r.jsonValue.isEmpty = true ∨ r.result ≠ 200 := by
      by_cases h200 : r.result = 200
      · left
        by_contra hne
        exact h ⟨h200, by simpa using hne⟩
      · right
        exact h200
    unfold Response.setHashAndHandleNotModified
    rw [if_pos hcond]

/-- C5 witness: `exC5` carries the payload `jsonA` with the matching
expected hash and an engaged store, so the 304 path is taken. -/
theorem claim_C5_witness :
    exC5.stringResponse.isSome = true ∧
    (exC5.result = 200 ∧ exC5.jsonValue.isEmpty = false) ∧
    exC5.expectedHash = some exC5.computeEtag ∧
    exC5.setHashAndHandleNotModified.getHeaderValue "ETag" = exC5.computeEtag ∧
    exC5.setHashAndHandleNotModified.jsonValue = exC5.jsonValue.clear ∧
    exC5.setHashAndHandleNotModified.result = 304 := by
  have h := claim_C5_setHashAndHandleNotModified exC5 rfl
  have hm : exC5.expectedHash = some exC5.computeEtag := by decide
  have hb := h.1 ⟨rfl, rfl⟩
  exact ⟨rfl, ⟨rfl, rfl⟩, hm, hb.1, (hb.2.1 hm).1, (hb.2.1 hm).2⟩

theorem Response.setHash_completed (r : Response) :
    r.setHashAndHandleNotModified.completed = r.completed := by
  unfold Response.setHashAndHandleNotModified
  split
  · rfl
  · split <;> rfl

theorem Response.step_completed_of_nonResetting (r : Response) (op : ROp)
    (hop : op.nonResetting = true) (hc : r.completed = true) :
    (r.step op).fst.completed = true ∧ (r.step op).snd = [] := by
  cases op with
  | clear => simp [ROp.nonResetting] at hop
  | setCompleteRequestHandler h => simp [ROp.nonResetting] at hop
  | moveInAssign o => simp [ROp.nonResetting] at hop
  | endOp => exact ⟨Response.endOp_fst_completed r, Response.endOp_snd_of_completed r hc⟩
  | setHashAndHandleNotModified =>
    refine ⟨?_, rfl⟩
    show r.setHashAndHandleNotModified.completed = true
    rw [Response.setHash_completed]
    exact hc
  | releaseCompleteRequestHandler => exact ⟨rfl, rfl⟩
  | addHeader k v => exact ⟨hc, rfl⟩
  | setResult v => exact ⟨hc, rfl⟩
  | write b => exact ⟨hc, rfl⟩
  | setKeepAlive k => exact ⟨hc, rfl⟩
  | preparePayload => exact ⟨hc, rfl⟩
  | setIsAliveHelper p => exact ⟨hc, rfl⟩
  | releaseIsAliveHelper => exact ⟨hc, rfl⟩
  | setExpectedHash h => exact ⟨hc, rfl⟩
  | moveOutCtor => exact ⟨hc, rfl⟩
  | moveOutAssign => exact ⟨hc, rfl⟩

theorem Response.runOps_of_completed : ∀ (ops : List ROp) (r : Response),
    ops.all ROp.nonResetting = true → r.completed = true →
    (Response.runOps r ops).snd = [] ∧ (Response.runOps r ops).fst.completed = true := by
  intro ops
  induction ops with
  | nil => intro r _ hc; exact ⟨rfl, hc⟩
  | cons op rest ih =>
    intro r h hc
    rw [List.all_cons, Bool.and_eq_true] at h
    obtain ⟨hop, hrest⟩ := h
    obtain ⟨h1, h2⟩ := Response.step_completed_of_nonResetting r op hop hc
    obtain ⟨h3, h4⟩ := ih (r.step op).fst hrest h1
    refine ⟨?_, h4⟩
    show (r.step op).snd ++ (Response.runOps (r.step op).fst rest).snd = []
    rw [h2, h3]
    rfl

/-- C3 counterexample: attach handler 7, finalize, clear, finalize again.
The clear resets the completed flag but does not release the stored
handler, so the same handler fires on both finalize calls: the event
trace is 7 twice, contradicting at-most-once firing across sequences
that include clear. -/
theorem claim_C3_counterexample :
    (Response.runOps Response.mkDefault
      [ROp.setCompleteRequestHandler 7, ROp.endOp, ROp.clear, ROp.endOp]).snd = [7, 7] := by
  decide

/-- C3 amended: across any sequence of public operations that contains
no `clear`, no attachment of a new completion handler, and no move
assignment into the instance, the completion handler fires at most once
in total; `clear` (like attaching a handler) resets the completed flag
without releasing the stored handler, so a later finalize can fire the
same handler again. -/
theorem claim_C3_amended : ∀ (ops : List ROp) (r : Response),
    ops.all ROp.nonResetting = true →
    (Response.runOps r ops).snd.length ≤ 1 := by
  intro ops
  induction ops with
  | nil =>
    intro r _
    simp [Response.runOps]
  | cons op rest ih =>
    intro r h
    rw [List.all_cons, Bool.and_eq_true] at h
    obtain ⟨hop, hrest⟩ := h
    show ((r.step op).snd ++ (Response.runOps (r.step op).fst rest).snd).length ≤ 1
    by_cases hc : r.completed = true
    · obtain ⟨h1, h2⟩ := Response.step_completed_of_nonResetting r op hop hc
      obtain ⟨h3, _⟩ := Response.runOps_of_completed rest (r.step op).fst hrest h1
      rw [h2, h3]
      simp
    · replace hc : r.completed = false := by simpa using hc
      cases op with
      | endOp =>
        have hfst : (r.step ROp.endOp).fst.completed = true := Response.endOp_fst_completed r
        obtain ⟨h3, _⟩ := Response.runOps_of_completed rest _ hrest hfst
        rw [h3]
        have h2 : (r.step ROp.endOp).snd = r.completeRequestHandler.toList := by
          show r.endOp.snd = _
          rw [Response.endOp_of_not_completed r hc]
        rw [h2]
        cases r.completeRequestHandler <;> simp
      | clear => simp [ROp.nonResetting] at hop
      | setCompleteRequestHandler hh => simp [ROp.nonResetting] at hop
      | moveInAssign o => simp [ROp.nonResetting] at hop
      | addHeader k v => simpa [Response.step] using ih _ hrest
      | setResult v => simpa [Response.step] using ih _ hrest
      | write b => simpa [Response.step] using ih _ hrest
      | setKeepAlive k => simpa [Response.step] using ih _ hrest
      | preparePayload => simpa [Response.step] using ih _ hrest
      | setIsAliveHelper p => simpa [Response.step] using ih _ hrest
      | releaseIsAliveHelper => simpa [Response.step] using ih _ hrest
      | releaseCompleteRequestHandler => simpa [Response.step] using ih _ hrest
      | setExpectedHash hh => simpa [Response.step] using ih _ hrest
      | setHashAndHandleNotModified => simpa [Response.step] using ih _ hrest
      | moveOutCtor => simpa [Response.step] using ih _ hrest
      | moveOutAssign => simpa [Response.step] using ih _ hrest

/-- C3 amended witness: a response with handler 9, finalized twice with
a relocation in between; the handler fires at most once. -/
theorem claim_C3_amended_witness :
    ([ROp.endOp, ROp.moveOutAssign, ROp.endOp].all ROp.nonResetting = true) ∧
    (Response.runOps exC3w [ROp.endOp, ROp.moveOutAssign, ROp.endOp]).snd.length ≤ 1 :=
  ⟨by decide, claim_C3_amended [ROp.endOp, ROp.moveOutAssign, ROp.endOp] exC3w (by decide)⟩

theorem Response.endOp_fst_stringResponse (r : Response) :
    r.endOp.fst.stringResponse =
      (if r.computeEtag = "" then r else r.addHeader "ETag" r.computeEtag).stringResponse := by
  by_cases hc : r.completed = true
  · rw [Response.endOp_of_completed r hc]
  · rw [Response.endOp_of_not_completed r (by simpa using hc)]

theorem Response.step_engaged (r : Response) (op : ROp)
    (h : r.stringResponse.isSome = true) (ha : op.engagedArg = true) :
    (r.step op).fst.stringResponse.isSome = true := by
  cases op with
  | addHeader k v =>
    show (r.addHeader k v).stringResponse.isSome = true
    rw [Response.addHeader_isSome]
    exact h
  | setResult v => simpa [Response.step, Response.setResult] using h
  | write b => simpa [Response.step, Response.write] using h
  | setKeepAlive k => simpa [Response.step, Response.setKeepAlive] using h
  | preparePayload => simpa [Response.step, Response.preparePayload] using h
  | clear => rfl
  | endOp =>
    show r.endOp.fst.stringResponse.isSome = true
    rw [Response.endOp_fst_stringResponse]
    by_cases he : r.computeEtag = ""
    · rw [if_pos he]
      exact h
    · rw [if_neg he, Response.addHeader_isSome]
      exact h
  | setCompleteRequestHandler hh => exact h
  | releaseCompleteRequestHandler => exact h
  | setIsAliveHelper p => exact h
  | releaseIsAliveHelper => exact h
  | setExpectedHash hh => exact h
  | setHashAndHandleNotModified =>
    show r.setHashAndHandleNotModified.stringResponse.isSome = true
    unfold Response.setHashAndHandleNotModified
    split
    · exact h
    · split
      · simpa [Response.setResult, Response.addHeader] using h
      · rw [Response.addHeader_isSome]
        exact h
  | moveOutCtor => simpa [Response.step, Response.moveCtor] using h
  | moveOutAssign => rfl
  | moveInAssign o => simpa [ROp.engagedArg] using ha

theorem Response.runOps_engaged : ∀ (ops : List ROp) (r : Response),
    r.stringResponse.isSome = true → ops.all ROp.engagedArg = true →
    (Response.runOps r ops).fst.stringResponse.isSome = true := by
  intro ops
  induction ops with
  | nil => intro r h _; exact h
  | cons op rest ih =>
    intro r h ha
    rw [List.all_cons, Bool.and_eq_true] at ha
    exact ih (r.step op).fst (Response.step_engaged r op h ha.1) ha.2

/-- C10: starting from any response with an engaged message store, every
sequence of public operations (every move-assignment source itself
having an engaged store) leaves the optional message store engaged; the
destination of a move construction is engaged as well, and so is a
default-constructed response.  Hence every accessor that dereferences
the optional is well-defined along any such operation sequence. -/
theorem claim_C10_engaged (r : Response) (ops : List ROp)
    (h1 : r.stringResponse.isSome = true) (h2 : ops.all ROp.engagedArg = true) :
    (Response.runOps r ops).fst.stringResponse.isSome = true ∧
    (Response.moveCtor r).fst.stringResponse.isSome = true ∧
    Response.mkDefault.stringResponse.isSome = true :=
  ⟨Response.runOps_engaged ops r h1 h2, h1, rfl⟩

/-- C10 witness: a default-constructed response run through a sequence
exercising every public operation keeps its store engaged. -/
theorem claim_C10_witness :
    (Response.mkDefault.stringResponse.isSome = true ∧
     exOps10.all ROp.engagedArg = true) ∧
    ((Response.runOps Response.mkDefault exOps10).fst.stringResponse.isSome = true ∧
     (Response.moveCtor Response.mkDefault).fst.stringResponse.isSome = true ∧
     Response.mkDefault.stringResponse.isSome = true) :=
  ⟨⟨rfl, by decide⟩, claim_C10_engaged Response.mkDefault exOps10 rfl (by decide)⟩
